import Mathlib

/-!
Shallow embedding of the statistical aggregation / precision-estimation
engine of the `reu2025` repository (verificarlo stochastic-rounding
analysis scripts).  Machine floating point is idealised to exact real
(`ℝ`) or rational (`ℚ`) arithmetic; a pandas `NaN` produced by `.std()`
on a too-small sample is modelled as `Option.none`; the Python value
`float('inf')` produced by the ulp scripts is modelled by the dedicated
constructor `PyVal.inf`.
-/

/-- Arithmetic mean of a list of rationals, `np.mean` (exact, with the
numpy convention irrelevant here since all groups are non-empty). -/
def npMean (xs : List ℚ) : ℚ := xs.sum / xs.length

/-- Population variance (`ddof = 0`), the quantity under the square root
in `np.std` (sigfigplot.py line 78, plot.py line 102, softmax/plot.py
lines 174 and 204). -/
def npVar (xs : List ℚ) : ℚ :=
  ((xs.map (fun x => (x - npMean xs) ^ 2)).sum) / xs.length

/-- `np.std` : population standard deviation (divisor = sample count). -/
noncomputable def npStd (xs : List ℚ) : ℝ := Real.sqrt (npVar xs)

/-- Sample variance (`ddof = 1`), the quantity under the square root in
`pandas.Series.std()`: divisor is `n - 1`. -/
def pandasVar (xs : List ℚ) : ℚ :=
  ((xs.map (fun x => (x - npMean xs) ^ 2)).sum) / ((xs.length : ℚ) - 1)

/-- `pandas.Series.std()` with the default `ddof = 1` (gelu/ulpplot.py
line 109, parallel_sum/ulpscript.py line 58, softmax/ulpscript.py
line 52): divisor is `n - 1`; on a series of length `≤ 1` pandas returns
`NaN`, modelled as `none`. -/
noncomputable def pandasStd (xs : List ℚ) : Option ℝ :=
  if xs.length ≤ 1 then none
  else some (Real.sqrt (pandasVar xs))

/-- `prec_dec = float(prec_b) * math.log(2, 10)` (sigfigplot.py line 37,
plot.py line 45), and `max_sig_digits = precision_bits * np.log10(2)`
(softmax/plot.py line 164): the decimal-digit ceiling. -/
noncomputable def precDec (bits : ℝ) : ℝ := bits * Real.logb 10 2

/-- Significant-digits formula of gelu/sigfigplot.py lines 81-87 (same
code in gelu/plot.py lines 105-111): `sigma == 0` is checked before
`mu == 0`, and the Stott Parker value is clamped above by `prec_dec`. -/
noncomputable def sigfigplotSig (mu sigma prec_dec : ℝ) : ℝ :=
  if sigma = 0 then prec_dec
  else if mu = 0 then 0
  else min (-Real.logb 10 (sigma / |mu|)) prec_dec

/-- Significant-digits formula of softmax/plot.py lines 177-183 (and
lines 207-212, 238-243): like `sigfigplotSig` but a standard deviation
below the threshold `1e-15` is also treated as zero.  The Python literal
`1e-15` is idealised as the exact rational `1/10^15`. -/
noncomputable def softmaxPlotSig (mean_val std_val max_sig : ℝ) : ℝ :=
  if std_val < 1 / 10 ^ 15 ∨ std_val = 0 then max_sig
  else if mean_val = 0 then 0
  else min (-Real.logb 10 (std_val / |mean_val|)) max_sig

/-- A Python float that is either finite or `float('inf')`. -/
inductive PyVal where
  | fin (x : ℝ) : PyVal
  | inf : PyVal

/-- Significant-digits computation of gelu/ulpplot.py lines 112-115:
`sig = -log10(std/|mean|)` when `mean != 0 and std > 0`, else
`inf if std == 0 else 0`.  The `std` argument is the pandas standard
deviation, `none` when pandas produced `NaN`; every comparison with
`NaN` is false, so a `NaN` std falls through to the final `0`. -/
noncomputable def geluUlpSig (mean_val : ℝ) (std_dev : Option ℝ) : PyVal :=
  match std_dev with
  | some s =>
      if mean_val ≠ 0 ∧ 0 < s then PyVal.fin (-Real.logb 10 (s / |mean_val|))
      else if s = 0 then PyVal.inf
      else PyVal.fin 0
  | none => PyVal.fin 0

/-- Significant-digits computation of softmax/ulpscript.py lines 54-57
(same in parallel_sum/ulpscript.py lines 60-63): the else branch is
unconditionally `float('inf')`. -/
noncomputable def ulpscriptSig (mean_val : ℝ) (std_dev : Option ℝ) : PyVal :=
  match std_dev with
  | some s =>
      if mean_val ≠ 0 ∧ 0 < s then PyVal.fin (-Real.logb 10 (s / |mean_val|))
      else PyVal.inf
  | none => PyVal.inf

/-- Relative-error computation of gelu/plot.py lines 114-119. -/
def relativeError (mu expected : ℚ) : ℚ :=
  if expected ≠ 0 then |mu - expected| / |expected|
  else if mu ≠ expected then |mu - expected| else 0

/- ----------------------------------------------------------------- -/
/- Helper lemmas about `Real.logb 10`                                 -/
/- ----------------------------------------------------------------- -/

theorem logb_ten_two_pos : 0 < Real.logb 10 2 :=
  Real.logb_pos (by norm_num) (by norm_num)

theorem logb_ten_two_lt_one : Real.logb 10 2 < 1 := by
  have h := Real.logb_lt_logb (b := 10) (x := 2) (by norm_num) (by norm_num)
    (by norm_num : (2 : ℝ) < 10)
  rwa [Real.logb_self_eq_one (by norm_num)] at h

theorem one_div_four_lt_logb_ten_two : 1 / 4 < Real.logb 10 2 := by
  have h1 : Real.logb 10 10 < Real.logb 10 (2 ^ 4) := by
    apply Real.logb_lt_logb (by norm_num) (by norm_num)
    norm_num
  rw [Real.logb_self_eq_one (by norm_num), Real.logb_pow] at h1
  push_cast at h1
  linarith

theorem logb_ten_hundred : Real.logb 10 (100 : ℝ) = 2 := by
  have h : (100 : ℝ) = 10 ^ (2 : ℕ) := by norm_num
  rw [h, Real.logb_pow, Real.logb_self_eq_one (by norm_num)]
  norm_num

theorem logb_ten_tenth : Real.logb 10 ((1 : ℝ) / 10) = -1 := by
  have h : (1 : ℝ) / 10 = 10⁻¹ := by norm_num
  rw [h, Real.logb_inv, Real.logb_self_eq_one (by norm_num)]

/- ----------------------------------------------------------------- -/
/- C5                                                                 -/
/- ----------------------------------------------------------------- -/

/-- C5: for every (mean, true_value), the error estimator returns
`|mean - true_value| / |true_value|` when `true_value ≠ 0`; when
`true_value = 0` it returns `|mean - true_value|` if `mean ≠ true_value`
and `0` if `mean = true_value` (gelu/plot.py lines 114-119). -/
theorem relativeError_spec (mu expected : ℚ) :
    (expected ≠ 0 → relativeError mu expected = |mu - expected| / |expected|) ∧
    (expected = 0 → mu ≠ expected → relativeError mu expected = |mu - expected|) ∧
    (expected = 0 → mu = expected → relativeError mu expected = 0) := by
  refine ⟨fun h => ?_, fun h0 hne => ?_, fun h0 heq => ?_⟩
  · simp [relativeError, h]
  · subst h0
    simp [relativeError, hne]
  · subst h0
    simp [relativeError, heq]

/-- Concrete instance of `relativeError_spec`: mean = 3, true value = 3
gives relative error 0. -/
theorem relativeError_spec_witness : relativeError 3 3 = 0 := by
  have h := (relativeError_spec 3 3).1 (by norm_num)
  rw [h]
  norm_num

/- ----------------------------------------------------------------- -/
/- C1                                                                 -/
/- ----------------------------------------------------------------- -/

/-- C1 counterexample: the pandas-based aggregation of gelu/ulpplot.py
uses `Series.std()` with its default `ddof = 1`, so the group holding
the single sample value 3 gets `std = NaN` (modelled `none`), not 0, and
its significant-digits value is `0`, not `max_digits = precDec 53`. -/
theorem singleton_group_pandas_std_nan :
    pandasStd [(3 : ℚ)] = none ∧
    geluUlpSig ((npMean [(3 : ℚ)] : ℚ) : ℝ) (pandasStd [(3 : ℚ)]) = PyVal.fin 0 ∧
    PyVal.fin 0 ≠ PyVal.fin (precDec 53) := by
  have hstd : pandasStd [(3 : ℚ)] = none := by simp [pandasStd]
  refine ⟨hstd, by rw [hstd]; rfl, ?_⟩
  intro h
  have h0 : (0 : ℝ) = precDec 53 := by injection h
  have hp : 0 < precDec 53 := by
    have := logb_ten_two_pos
    unfold precDec
    nlinarith
  linarith [h0 ▸ hp]

/-- C1 amended: for a singleton group the `np.std`-based scripts
(sigfigplot.py, gelu/plot.py, softmax/plot.py) produce `std = 0` exactly
and `significant_digits = max_digits`; the pandas-based scripts produce
`std = NaN` (sample standard deviation, `ddof = 1`), on which
gelu/ulpplot.py reports 0 significant digits and the ulpscripts report
`float('inf')`. -/
theorem singleton_group_aggregation :
    (∀ v : ℚ, npStd [v] = 0) ∧
    (∀ v : ℚ, ∀ bits : ℝ,
      sigfigplotSig ((npMean [v] : ℚ) : ℝ) (npStd [v]) (precDec bits) =
        precDec bits) ∧
    (∀ v : ℚ, pandasStd [v] = none) ∧
    (∀ v : ℚ, geluUlpSig ((npMean [v] : ℚ) : ℝ) (pandasStd [v]) = PyVal.fin 0) ∧
    (∀ v : ℚ, ulpscriptSig ((npMean [v] : ℚ) : ℝ) (pandasStd [v]) = PyVal.inf) := by
  have hvar : ∀ v : ℚ, npVar [v] = 0 := by
    intro v
    simp [npVar, npMean]
  have hstd : ∀ v : ℚ, npStd [v] = 0 := by
    intro v
    simp [npStd, hvar v]
  have hpd : ∀ v : ℚ, pandasStd [v] = none := by
    intro v
    simp [pandasStd]
  refine ⟨hstd, fun v bits => ?_, hpd, fun v => ?_, fun v => ?_⟩
  · rw [hstd v]
    simp [sigfigplotSig]
  · rw [hpd v]
    rfl
  · rw [hpd v]
    rfl

/- ----------------------------------------------------------------- -/
/- C2                                                                 -/
/- ----------------------------------------------------------------- -/

/-- C2 counterexample: gelu/sigfigplot.py has no `1e-15` threshold — its
first check is `sigma == 0` only.  With `mean = 0` and
`std = 1e-16` (positive but below the alleged threshold) it returns 0,
not the ceiling `precDec 53 > 0`. -/
theorem subthreshold_std_not_max :
    sigfigplotSig 0 (1 / 10 ^ 16) (precDec 53) = 0 ∧
    (0 : ℝ) ≠ precDec 53 := by
  constructor
  · have h : ((1 : ℝ) / 10 ^ 16) ≠ 0 := by norm_num
    simp [sigfigplotSig, h]
  · have hp : 0 < precDec 53 := by
      have := logb_ten_two_pos
      unfold precDec
      nlinarith
    linarith

/-- C2 amended: with `std` exactly 0 every estimator variant that has a
ceiling returns it regardless of `mean` (std-zero priority over
mean-zero); the sub-`1e-15` behaviour exists only in softmax/plot.py;
softmax/ulpscript.py returns `float('inf')` instead of the finite
ceiling when `std = 0`. -/
theorem std_zero_priority :
    (∀ mu prec_dec : ℝ, sigfigplotSig mu 0 prec_dec = prec_dec) ∧
    (∀ mean std max_sig : ℝ, std < 1 / 10 ^ 15 →
      softmaxPlotSig mean std max_sig = max_sig) ∧
    (∀ mean : ℝ, ulpscriptSig mean (some 0) = PyVal.inf) := by
  refine ⟨fun mu prec_dec => ?_, fun mean std max_sig h => ?_, fun mean => ?_⟩
  · simp [sigfigplotSig]
  · have hc : std < 1 / 10 ^ 15 ∨ std = 0 := Or.inl h
    simp only [softmaxPlotSig, if_pos hc]
  · simp [ulpscriptSig]

/-- Concrete instance of `std_zero_priority`: at `mean = 0`,
`std = 1e-16 < 1e-15` the softmax/plot.py estimator yields the ceiling. -/
theorem std_zero_priority_witness :
    ((1 : ℝ) / 10 ^ 16 < 1 / 10 ^ 15) ∧
    softmaxPlotSig 0 (1 / 10 ^ 16) (precDec 53) = precDec 53 := by
  have h : (1 : ℝ) / 10 ^ 16 < 1 / 10 ^ 15 := by norm_num
  exact ⟨h, std_zero_priority.2.1 0 (1 / 10 ^ 16) (precDec 53) h⟩

/- ----------------------------------------------------------------- -/
/- C3                                                                 -/
/- ----------------------------------------------------------------- -/

/-- C3 counterexample: with `mean = 1 ≠ 0`, `std = 100 > 0` the
softmax/plot.py estimator returns `min(-log10(100/1), ceiling) = -2`,
which is negative — the estimate is NOT always in `[0, ceiling]`. -/
theorem sig_digits_negative :
    softmaxPlotSig 1 100 (precDec 53) < 0 := by
  have hb : ¬((100 : ℝ) < 1 / 10 ^ 15 ∨ (100 : ℝ) = 0) := by norm_num
  have hm : (1 : ℝ) ≠ 0 := by norm_num
  have hq : (100 : ℝ) / |(1 : ℝ)| = 100 := by norm_num
  have hM : 0 < precDec 53 := by
    have := logb_ten_two_pos
    unfold precDec
    nlinarith
  have : softmaxPlotSig 1 100 (precDec 53) =
      min (-Real.logb 10 (100 / |(1 : ℝ)|)) (precDec 53) := by
    simp only [softmaxPlotSig, if_neg hb, if_neg hm]
  rw [this, hq, logb_ten_hundred]
  have : min (-2 : ℝ) (precDec 53) = -2 := min_eq_left (by linarith)
  rw [this]
  norm_num

/-- C3 amended: for `mean ≠ 0` the estimate never exceeds the ceiling
(the `min` clamps above), and when `std` is at or above the `1e-15`
threshold it equals `min(-log10(std/|mean|), ceiling)` exactly — a
quantity that is negative whenever `std > |mean| · 10^ceiling⁰`, since
no lower clamp at 0 exists. -/
theorem sig_digits_upper_bound :
    ∀ mean std max_sig : ℝ, mean ≠ 0 →
      softmaxPlotSig mean std max_sig ≤ max_sig ∧
      (1 / 10 ^ 15 ≤ std →
        softmaxPlotSig mean std max_sig =
          min (-Real.logb 10 (std / |mean|)) max_sig) := by
  intro mean std max_sig hm
  constructor
  · unfold softmaxPlotSig
    by_cases h1 : std < 1 / 10 ^ 15 ∨ std = 0
    · rw [if_pos h1]
    · rw [if_neg h1, if_neg hm]
      exact min_le_right _ _
  · intro hth
    have h1 : ¬(std < 1 / 10 ^ 15 ∨ std = 0) := by
      push_neg
      constructor
      · linarith
      · intro h0
        rw [h0] at hth
        norm_num at hth
    simp only [softmaxPlotSig, if_neg h1, if_neg hm]

/-- Concrete instance of `sig_digits_upper_bound` at `mean = 1`,
`std = 1`, ceiling `precDec 53`. -/
theorem sig_digits_upper_bound_witness :
    (1 : ℝ) ≠ 0 ∧
    (softmaxPlotSig 1 1 (precDec 53) ≤ precDec 53 ∧
      ((1 : ℝ) / 10 ^ 15 ≤ 1 →
        softmaxPlotSig 1 1 (precDec 53) =
          min (-Real.logb 10 (1 / |(1 : ℝ)|)) (precDec 53))) :=
  ⟨by norm_num, sig_digits_upper_bound 1 1 (precDec 53) (by norm_num)⟩

/- ----------------------------------------------------------------- -/
/- C8                                                                 -/
/- ----------------------------------------------------------------- -/

/-- C8: when `mean ≠ 0`, `std > 0`, and the estimates for both `std` and
`2·std` lie strictly inside `(0, precDec bits)`, doubling the dispersion
decreases the sigfigplot.py estimate by exactly `log10 2`. -/
theorem doubling_std_decreases_sig (mean std bits : ℝ)
    (hm : mean ≠ 0) (hs : 0 < std)
    (h1 : sigfigplotSig mean std (precDec bits) ∈
      Set.Ioo 0 (precDec bits))
    (h2 : sigfigplotSig mean (2 * std) (precDec bits) ∈
      Set.Ioo 0 (precDec bits)) :
    sigfigplotSig mean (2 * std) (precDec bits) =
      sigfigplotSig mean std (precDec bits) - Real.logb 10 2 := by
  have hs0 : std ≠ 0 := ne_of_gt hs
  have hs2 : (2 : ℝ) * std ≠ 0 := by positivity
  have hq : std / |mean| ≠ 0 := by
    have : |mean| ≠ 0 := abs_ne_zero.mpr hm
    exact div_ne_zero hs0 this
  have e1 : sigfigplotSig mean std (precDec bits) =
      min (-Real.logb 10 (std / |mean|)) (precDec bits) := by
    simp only [sigfigplotSig, if_neg hs0, if_neg hm]
  have e2 : sigfigplotSig mean (2 * std) (precDec bits) =
      min (-Real.logb 10 (2 * std / |mean|)) (precDec bits) := by
    simp only [sigfigplotSig, if_neg hs2, if_neg hm]
  have hlog : Real.logb 10 (2 * std / |mean|) =
      Real.logb 10 2 + Real.logb 10 (std / |mean|) := by
    rw [mul_div_assoc, Real.logb_mul (by norm_num) hq]
  have u1 : min (-Real.logb 10 (std / |mean|)) (precDec bits) =
      -Real.logb 10 (std / |mean|) := by
    rcases le_or_lt (precDec bits) (-Real.logb 10 (std / |mean|)) with h | h
    · exfalso
      rw [e1, min_eq_right h] at h1
      exact lt_irrefl _ h1.2
    · exact min_eq_left h.le
  have u2 : min (-Real.logb 10 (2 * std / |mean|)) (precDec bits) =
      -Real.logb 10 (2 * std / |mean|) := by
    rcases le_or_lt (precDec bits) (-Real.logb 10 (2 * std / |mean|)) with h | h
    · exfalso
      rw [e2, min_eq_right h] at h2
      exact lt_irrefl _ h2.2
    · exact min_eq_left h.le
  rw [e1, e2, u1, u2, hlog]
  ring

theorem sigfig_at_one_tenth :
    sigfigplotSig 1 (1 / 10) (precDec 53) = 1 := by
  have hs0 : ((1 : ℝ) / 10) ≠ 0 := by norm_num
  have hm : (1 : ℝ) ≠ 0 := by norm_num
  have e : sigfigplotSig 1 (1 / 10) (precDec 53) =
      min (-Real.logb 10 ((1 / 10) / |(1 : ℝ)|)) (precDec 53) := by
    simp only [sigfigplotSig, if_neg hs0, if_neg hm]
  have hq : ((1 : ℝ) / 10) / |(1 : ℝ)| = 1 / 10 := by norm_num
  rw [e, hq, logb_ten_tenth]
  have hM : (1 : ℝ) ≤ precDec 53 := by
    have := one_div_four_lt_logb_ten_two
    unfold precDec
    nlinarith
  rw [neg_neg]
  exact min_eq_left hM

theorem sigfig_at_one_fifth :
    sigfigplotSig 1 (2 * (1 / 10)) (precDec 53) = 1 - Real.logb 10 2 := by
  have hs0 : (2 * ((1 : ℝ) / 10)) ≠ 0 := by norm_num
  have hm : (1 : ℝ) ≠ 0 := by norm_num
  have e : sigfigplotSig 1 (2 * (1 / 10)) (precDec 53) =
      min (-Real.logb 10 ((2 * (1 / 10)) / |(1 : ℝ)|)) (precDec 53) := by
    simp only [sigfigplotSig, if_neg hs0, if_neg hm]
  have hq : (2 * ((1 : ℝ) / 10)) / |(1 : ℝ)| = 2 / 10 := by norm_num
  have hlog : Real.logb 10 ((2 : ℝ) / 10) = Real.logb 10 2 - 1 := by
    rw [Real.logb_div (by norm_num) (by norm_num),
      Real.logb_self_eq_one (by norm_num)]
  rw [e, hq, hlog]
  have hM : (1 : ℝ) - Real.logb 10 2 ≤ precDec 53 := by
    have h4 := one_div_four_lt_logb_ten_two
    have hp := logb_ten_two_pos
    unfold precDec
    nlinarith
  have : -(Real.logb 10 2 - 1) = 1 - Real.logb 10 2 := by ring
  rw [this]
  exact min_eq_left hM

/-- Concrete instance of `doubling_std_decreases_sig`: mean = 1,
std = 1/10, precision 53 bits; both estimates are interior and doubling
std lowers the estimate by `log10 2`. -/
theorem doubling_std_decreases_sig_witness :
    (1 : ℝ) ≠ 0 ∧ (0 : ℝ) < 1 / 10 ∧
    sigfigplotSig 1 (1 / 10) (precDec 53) ∈ Set.Ioo 0 (precDec 53) ∧
    sigfigplotSig 1 (2 * (1 / 10)) (precDec 53) ∈ Set.Ioo 0 (precDec 53) ∧
    sigfigplotSig 1 (2 * (1 / 10)) (precDec 53) =
      sigfigplotSig 1 (1 / 10) (precDec 53) - Real.logb 10 2 := by
  have h4 := one_div_four_lt_logb_ten_two
  have hp := logb_ten_two_pos
  have hlt1 := logb_ten_two_lt_one
  have hM13 : (53 : ℝ) / 4 < precDec 53 := by
    unfold precDec
    nlinarith
  have h1 : sigfigplotSig 1 (1 / 10) (precDec 53) ∈ Set.Ioo 0 (precDec 53) := by
    rw [sigfig_at_one_tenth]
    constructor
    · norm_num
    · linarith
  have h2 : sigfigplotSig 1 (2 * (1 / 10)) (precDec 53) ∈
      Set.Ioo 0 (precDec 53) := by
    rw [sigfig_at_one_fifth]
    constructor
    · linarith
    · linarith
  exact ⟨by norm_num, by norm_num, h1, h2,
    doubling_std_decreases_sig 1 (1 / 10) 53 (by norm_num) (by norm_num) h1 h2⟩

/- ----------------------------------------------------------------- -/
/- ULP model and C6                                                   -/
/- ----------------------------------------------------------------- -/

/-- Model of `np.spacing` on `float64` arguments, for inputs that are
exactly representable, finite and non-overflowing: the signed distance
from `v` to the next representable double in the direction of `v`'s
sign.  For normal `v` this is `sign v * 2 ^ (⌊log2 |v|⌋ - 52)`; the
exponent is clamped at `-1022` so that subnormal inputs (and 0) get the
minimum subnormal gap `2 ^ -1074`; `np.spacing(0.0)` is positive. -/
def spacing64 (v : ℚ) : ℚ :=
  if v = 0 then (2 : ℚ) ^ (-1074 : ℤ)
  else (if 0 < v then 1 else -1) * (2 : ℚ) ^ (max (Int.log 2 |v|) (-1022) - 52)

theorem spacing64_ne_zero (v : ℚ) : spacing64 v ≠ 0 := by
  unfold spacing64
  split
  · exact zpow_ne_zero _ two_ne_zero
  · split
    · simpa using zpow_ne_zero (n := max (Int.log 2 |v|) (-1022) - 52)
        (a := (2 : ℚ)) two_ne_zero
    · simp only [neg_mul, one_mul, ne_eq, neg_eq_zero]
      exact zpow_ne_zero _ two_ne_zero

theorem spacing64_pos_of_pos {v : ℚ} (h : 0 < v) : 0 < spacing64 v := by
  unfold spacing64
  rw [if_neg (ne_of_gt h), if_pos h, one_mul]
  exact zpow_pos (by norm_num) _

theorem spacing64_neg_of_neg {v : ℚ} (h : v < 0) : spacing64 v < 0 := by
  unfold spacing64
  rw [if_neg (ne_of_lt h), if_neg (not_lt.mpr h.le), neg_one_mul, neg_neg_iff_pos]
  exact zpow_pos (by norm_num) _

/-- ULP-error computation of gelu/ulpplot.py lines 128-130:
`ulp = abs(np.spacing(tv)); ulp_error = abs_error/ulp if ulp != 0 else 0`. -/
def geluUlpErr (mean_val true_val : ℚ) : ℚ :=
  if |spacing64 true_val| ≠ 0 then |mean_val - true_val| / |spacing64 true_val|
  else 0

/-- ULP-error computation of parallel_sum/ulpscript.py lines 78-80 (and
softmax/ulpscript.py lines 65-67): `ulp = np.spacing(tv)` (signed, no
`abs`) and `ulp_error = abs_error/ulp if ulp > 0 else 0`. -/
def parallelUlpErr (mean_val true_val : ℚ) : ℚ :=
  if 0 < spacing64 true_val then |mean_val - true_val| / spacing64 true_val
  else 0

theorem spacing64_neg_one : spacing64 (-1 : ℚ) = -(2 : ℚ) ^ (-52 : ℤ) := by
  have h1 : |(-1 : ℚ)| = 1 := by norm_num
  have h2 : Int.log 2 (1 : ℚ) = 0 := Int.log_one_right 2
  have h3 : max (0 : ℤ) (-1022) - 52 = -52 := by norm_num
  rw [spacing64, if_neg (by norm_num : (-1 : ℚ) ≠ 0),
    if_neg (by norm_num : ¬(0 : ℚ) < -1), h1, h2, h3]
  ring

/-- C6 counterexample: for `true_value = -1` (a nonzero finite double)
the parallel_sum script's guard `ulp > 0` sees the negative signed
spacing `-2^-52` and returns `ulp_error = 0`, while the claimed formula
`|mean - true|/ulp(true)` gives `2^52` at `mean = 0`. -/
theorem ulp_error_negative_true_value :
    parallelUlpErr 0 (-1) = 0 ∧
    |(0 : ℚ) - (-1)| / |spacing64 (-1)| = 2 ^ (52 : ℕ) ∧
    (0 : ℚ) ≠ 2 ^ (52 : ℕ) := by
  refine ⟨?_, ?_, by norm_num⟩
  · have h : spacing64 (-1 : ℚ) < 0 := spacing64_neg_of_neg (by norm_num)
    rw [parallelUlpErr, if_neg (not_lt.mpr h.le)]
  · rw [spacing64_neg_one, abs_neg]
    have hpos : (0 : ℚ) < (2 : ℚ) ^ (-52 : ℤ) := zpow_pos (by norm_num) _
    rw [abs_of_pos hpos, zpow_neg]
    norm_num

/-- C6 amended: gelu/ulpplot.py divides by the magnitude
`|np.spacing(true_value)|`, which is never zero, so its ulp_error equals
`abs_error / ulp` for every true value (the `ulp == 0` guard never
fires, and the computation is total); the ulpscripts divide by the
signed spacing with guard `ulp > 0`, so they match the formula only for
positive true values and return 0 for every negative true value. -/
theorem ulp_error_formula :
    (∀ mean_val true_val : ℚ, geluUlpErr mean_val true_val =
      |mean_val - true_val| / |spacing64 true_val|) ∧
    (∀ mean_val true_val : ℚ, true_val < 0 →
      parallelUlpErr mean_val true_val = 0) ∧
    (∀ mean_val true_val : ℚ, 0 < true_val →
      parallelUlpErr mean_val true_val =
        |mean_val - true_val| / spacing64 true_val) := by
  refine ⟨fun mean_val true_val => ?_, fun mean_val true_val h => ?_,
    fun mean_val true_val h => ?_⟩
  · have hne : |spacing64 true_val| ≠ 0 :=
      abs_ne_zero.mpr (spacing64_ne_zero true_val)
    rw [geluUlpErr, if_pos hne]
  · have hneg : spacing64 true_val < 0 := spacing64_neg_of_neg h
    rw [parallelUlpErr, if_neg (not_lt.mpr hneg.le)]
  · have hpos : 0 < spacing64 true_val := spacing64_pos_of_pos h
    rw [parallelUlpErr, if_pos hpos]

/-- Concrete instance of `ulp_error_formula` at true values `-1` and
`1`. -/
theorem ulp_error_formula_witness :
    ((-1 : ℚ) < 0 ∧ parallelUlpErr 3 (-1) = 0) ∧
    ((0 : ℚ) < 1 ∧ parallelUlpErr 3 1 = |(3 : ℚ) - 1| / spacing64 1) ∧
    geluUlpErr 3 (-1) = |(3 : ℚ) - (-1)| / |spacing64 (-1)| :=
  ⟨⟨by norm_num, ulp_error_formula.2.1 3 (-1) (by norm_num)⟩,
   ⟨by norm_num, ulp_error_formula.2.2 3 1 (by norm_num)⟩,
   ulp_error_formula.1 3 (-1)⟩

/- ----------------------------------------------------------------- -/
/- C7                                                                 -/
/- ----------------------------------------------------------------- -/

/-- A raw input row of gelu/ulpplot.py after
`pd.to_numeric(..., errors='coerce')` (lines 77-78): each numeric field
is either a parsed rational or `NaN` (`none`) when the text was not
numeric. -/
structure RawRow where
  x : Option ℚ
  result : Option ℚ

/-- The effect of `df.dropna()` on one row (gelu/ulpplot.py line 81): a
row survives iff no field is `NaN`. -/
def coerceRow (r : RawRow) : Option (ℚ × ℚ) :=
  match r.x, r.result with
  | some a, some b => some (a, b)
  | _, _ => none

/-- The loading stage of gelu/ulpplot.py lines 76-85 (same code in
parallel_sum/ulpscript.py lines 36-41): coerce each field, drop rows
containing `NaN`, and fail (`sys.exit(1)`) only when no rows remain. -/
def loadUlpData (rows : List RawRow) : Except String (List (ℚ × ℚ)) :=
  if rows.filterMap coerceRow = [] then
    Except.error "No valid data found in input file"
  else Except.ok (rows.filterMap coerceRow)

theorem coerceRow_eq_none (r : RawRow) :
    coerceRow r = none ↔ r.x = none ∨ r.result = none := by
  rcases r with ⟨x, result⟩
  cases x <;> cases result <;> simp [coerceRow]

/-- C7 counterexample: an input containing one well-formed row and one
row with a non-numeric result field loads successfully, producing a
partial result from the well-formed row only — the malformed record is
silently dropped instead of failing the run. -/
theorem malformed_row_silently_dropped :
    loadUlpData [⟨some 1, some 2⟩, ⟨some 1, none⟩] = Except.ok [(1, 2)] := rfl

/-- C7 amended: in the pandas-based loaders a record whose fields do not
parse as numbers is coerced to `NaN` and silently dropped; the remaining
records produce a partial result, and loading fails only when every
record is malformed (the frame is empty after `dropna`). -/
theorem load_fails_iff_all_malformed (rows : List RawRow) :
    ((∃ e, loadUlpData rows = Except.error e) ↔
      ∀ r ∈ rows, r.x = none ∨ r.result = none) ∧
    (rows.filterMap coerceRow ≠ [] →
      loadUlpData rows = Except.ok (rows.filterMap coerceRow)) := by
  constructor
  · constructor
    · rintro ⟨e, he⟩
      unfold loadUlpData at he
      split at he
      · next hk =>
          intro r hr
          exact (coerceRow_eq_none r).mp (List.filterMap_eq_nil_iff.mp hk r hr)
      · exact absurd he (by simp)
    · intro hall
      have hk : rows.filterMap coerceRow = [] :=
        List.filterMap_eq_nil_iff.mpr
          (fun r hr => (coerceRow_eq_none r).mpr (hall r hr))
      exact ⟨"No valid data found in input file", by
        unfold loadUlpData
        rw [if_pos hk]⟩
  · intro hne
    unfold loadUlpData
    rw [if_neg hne]

/-- Concrete instance of `load_fails_iff_all_malformed`: a single
well-formed row loads as itself. -/
theorem load_fails_iff_all_malformed_witness :
    (([⟨some 1, some 2⟩] : List RawRow).filterMap coerceRow ≠ []) ∧
    loadUlpData [⟨some 1, some 2⟩] =
      Except.ok (([⟨some 1, some 2⟩] : List RawRow).filterMap coerceRow) := by
  have hne : ([⟨some 1, some 2⟩] : List RawRow).filterMap coerceRow ≠ [] := by
    simp [coerceRow]
  exact ⟨hne, (load_fails_iff_all_malformed [⟨some 1, some 2⟩]).2 hne⟩

/- ----------------------------------------------------------------- -/
/- C10                                                                -/
/- ----------------------------------------------------------------- -/

/-- `filter_data` of softmax/plot.py lines 140-157, after the filter
string has been parsed into (variable, value) pairs: a row passes the
mask iff, for every filter pair whose variable names an existing column
of the row, the column value is within absolute tolerance `1e-10`
(idealised as `1/10^10`) of the filter value; a filter variable naming
no column contributes nothing to the mask.  A row is the association
list of its column names and values. -/
def filterData (data : List (List (String × ℚ)))
    (filters : List (String × ℚ)) : List (List (String × ℚ)) :=
  data.filter (fun row => filters.all (fun p =>
    match row.lookup p.1 with
    | some x => decide (|x - p.2| < 1 / 10 ^ 10)
    | none => true))

/-- C10: a row is retained by `filter_data` iff, for every filter
variable naming an existing column, the row's component differs from the
filter value by strictly less than `1e-10`; unknown filter variables are
ignored. -/
theorem filter_data_spec (data : List (List (String × ℚ)))
    (filters : List (String × ℚ)) (row : List (String × ℚ)) :
    row ∈ filterData data filters ↔
      row ∈ data ∧ ∀ p ∈ filters, ∀ x, row.lookup p.1 = some x →
        |x - p.2| < 1 / 10 ^ 10 := by
  unfold filterData
  rw [List.mem_filter, List.all_eq_true]
  apply and_congr_right
  intro _
  constructor
  · intro h p hp x hx
    have hh := h p hp
    rw [hx] at hh
    simpa using hh
  · intro h p hp
    cases hl : row.lookup p.1 with
    | none => rfl
    | some x => simpa using h p hp x hl

/-- Concrete instance of `filter_data_spec`: with filter pairs
`x1 = 1` and `zz = 7` (the latter naming no column), the row with
`x1 = 1` is retained and the row with `x1 = 2` is dropped. -/
theorem filter_data_spec_witness :
    [("i", (0 : ℚ)), ("x0", 0), ("x1", 1), ("result", 5)] ∈
      filterData [[("i", (0 : ℚ)), ("x0", 0), ("x1", 1), ("result", 5)],
        [("i", (0 : ℚ)), ("x0", 0), ("x1", 2), ("result", 6)]]
        [("x1", 1), ("zz", 7)] ∧
    [("i", (0 : ℚ)), ("x0", 0), ("x1", 2), ("result", 6)] ∉
      filterData [[("i", (0 : ℚ)), ("x0", 0), ("x1", 1), ("result", 5)],
        [("i", (0 : ℚ)), ("x0", 0), ("x1", 2), ("result", 6)]]
        [("x1", 1), ("zz", 7)] := by
  constructor
  · refine (filter_data_spec _ _ _).mpr ⟨by simp, ?_⟩
    intro p hp x hx
    fin_cases hp
    · rw [show List.lookup "x1"
        [("i", (0 : ℚ)), ("x0", 0), ("x1", 1), ("result", 5)] = some 1
        from rfl] at hx
      injection hx with h
      subst h
      norm_num
    · rw [show List.lookup "zz"
        [("i", (0 : ℚ)), ("x0", 0), ("x1", 1), ("result", 5)] =
        (none : Option ℚ) from rfl] at hx
      exact absurd hx (by simp)
  · intro h
    obtain ⟨-, hall⟩ := (filter_data_spec _ _ _).mp h
    have h2 := hall ("x1", 1) (by simp) 2 (by rfl)
    norm_num at h2

/- ----------------------------------------------------------------- -/
/- C4                                                                 -/
/- ----------------------------------------------------------------- -/

/-- One output record of the per-coordinate loop of gelu/ulpplot.py
lines 106-141 (one CSV row of the analysis output). -/
structure UlpRecord where
  x : ℚ
  mean_val : ℚ
  std_dev : Option ℝ
  sig_digits : PyVal
  true_val : ℚ
  abs_error : ℚ
  ulp_error : ℚ

/-- The statistics written for one group (gelu/ulpplot.py lines
107-141), given the oracle value `true_val` for its coordinate. -/
noncomputable def mkUlpRecord (x : ℚ) (samples : List ℚ) (true_val : ℚ) :
    UlpRecord :=
  { x := x
    mean_val := npMean samples
    std_dev := pandasStd samples
    sig_digits := geluUlpSig ((npMean samples : ℚ) : ℝ) (pandasStd samples)
    true_val := true_val
    abs_error := |npMean samples - true_val|
    ulp_error := geluUlpErr (npMean samples) true_val }

/-- The analysis loop of gelu/ulpplot.py lines 106-141 over the groups
in ascending coordinate order (pandas `groupby` sorts keys).  The oracle
returns `none` when the external reference program exits with non-zero
status or prints unparsable output; `get_true_value` (lines 28-37)
reacts to either by calling `sys.exit(1)`, so processing stops: the
records written so far remain and the abort flag is set. -/
noncomputable def processGroups (oracle : ℚ → Option ℚ) :
    List (ℚ × List ℚ) → List UlpRecord × Bool
  | [] => ([], false)
  | (x, samples) :: rest =>
      match oracle x with
      | none => ([], true)
      | some tv =>
          ((mkUlpRecord x samples tv) :: (processGroups oracle rest).1,
            (processGroups oracle rest).2)

/-- An oracle that fails (non-zero exit) exactly at coordinate 0. -/
def oracleFail0 : ℚ → Option ℚ := fun x => if x = 0 then none else some 1

/-- C4 counterexample: with coordinates A = 0 and B = 1 in one run,
the oracle failing on A and succeeding on B, the gelu/ulpplot.py run
aborts via `sys.exit(1)` with no record at all — B does not receive a
ReferenceRecord and the run does not complete. -/
theorem oracle_failure_aborts_run :
    processGroups oracleFail0 [(0, [1]), (1, [1])] = ([], true) ∧
    oracleFail0 0 = none ∧ oracleFail0 1 = some 1 := by
  refine ⟨?_, rfl, rfl⟩
  simp [processGroups, oracleFail0]

/-- C4 amended: an oracle failure at any coordinate aborts the whole
run (`sys.exit(1)`) instead of being isolated: the abort flag is set iff
some group's oracle call fails, and records exist exactly for the
longest prefix of groups (in processing order) whose oracle calls all
succeed — a succeeding coordinate B obtains a record only when it
precedes every failing coordinate. -/
theorem oracle_failure_not_isolated (oracle : ℚ → Option ℚ)
    (groups : List (ℚ × List ℚ)) :
    ((processGroups oracle groups).2 = true ↔
      ∃ g ∈ groups, oracle g.1 = none) ∧
    (processGroups oracle groups).1.length =
      (groups.takeWhile (fun g => (oracle g.1).isSome)).length := by
  induction groups with
  | nil => simp [processGroups]
  | cons g rest ih =>
      rcases g with ⟨x, samples⟩
      cases ho : oracle x with
      | none => simp [processGroups, ho, List.takeWhile_cons]
      | some tv => simp [processGroups, ho, List.takeWhile_cons, ih.1, ih.2]

/-- Concrete instance of `oracle_failure_not_isolated`: with the failing
coordinate 0 processed second, the run still aborts and only the first
group has a record. -/
theorem oracle_failure_not_isolated_witness :
    (processGroups oracleFail0 [(1, [1]), (0, [1])]).2 = true ∧
    (processGroups oracleFail0 [(1, [1]), (0, [1])]).1.length = 1 := by
  have h := oracle_failure_not_isolated oracleFail0 [(1, [1]), (0, [1])]
  constructor
  · exact h.1.mpr ⟨(0, [1]), by simp, rfl⟩
  · rw [h.2]
    rfl

/- ----------------------------------------------------------------- -/
/- C9                                                                 -/
/- ----------------------------------------------------------------- -/

/-- Sorted insertion, one step of the model of `np.unique`. -/
def insertSorted (x : ℚ) : List ℚ → List ℚ
  | [] => [x]
  | y :: ys => if x ≤ y then x :: y :: ys else y :: insertSorted x ys

/-- Model of `np.unique`: the distinct values of a list in ascending
order (softmax/plot.py lines 195-196). -/
def uniqueSorted (l : List ℚ) : List ℚ := l.dedup.foldr insertSorted []

theorem mem_insertSorted {x y : ℚ} {l : List ℚ} :
    x ∈ insertSorted y l ↔ x = y ∨ x ∈ l := by
  induction l with
  | nil => simp [insertSorted]
  | cons z zs ih =>
      by_cases h : y ≤ z
      · simp [insertSorted, h]
      · simp only [insertSorted, if_neg h, List.mem_cons, ih]
        tauto

theorem mem_uniqueSorted {x : ℚ} {l : List ℚ} :
    x ∈ uniqueSorted l ↔ x ∈ l := by
  rw [← List.mem_dedup (l := l)]
  unfold uniqueSorted
  generalize l.dedup = d
  induction d with
  | nil => simp
  | cons a as ih => simp [mem_insertSorted, ih]

/-- One row of a two-input data file: `(i, x0, x1, result)`
(softmax/plot.py lines 125-127). -/
structure Row2 where
  i : ℤ
  x0 : ℚ
  x1 : ℚ
  result : ℚ
deriving DecidableEq

/-- One entry of the statistics list built by `compute_statistics`
for two inputs (softmax/plot.py lines 214-222). -/
structure Stat2 where
  x0 : ℚ
  x1 : ℚ
  mean : ℚ
  std : ℝ
  vmin : Option ℚ
  vmax : Option ℚ
  count : ℕ
  sig_digits : ℝ

/-- The dictionary appended for one `(x0, x1)` combination with a
non-empty mask (softmax/plot.py lines 202-222). -/
noncomputable def mkStat2 (a b : ℚ) (values : List ℚ) (max_sig : ℝ) :
    Stat2 :=
  { x0 := a
    x1 := b
    mean := npMean values
    std := npStd values
    vmin := values.min?
    vmax := values.max?
    count := values.length
    sig_digits := softmaxPlotSig ((npMean values : ℚ) : ℝ) (npStd values)
      max_sig }

/-- `compute_statistics` for `n_inputs = 2` (softmax/plot.py lines
194-222): iterate over the Cartesian product of the sorted unique `x0`
and `x1` values and keep an entry for each combination whose mask
selects at least one row — combinations with an empty mask are skipped
(`if np.any(mask)`), not reported as errors. -/
noncomputable def computeStats2 (data : List Row2) (precision_bits : ℝ) :
    List Stat2 :=
  (uniqueSorted (data.map Row2.x0)).flatMap (fun a =>
    (uniqueSorted (data.map Row2.x1)).filterMap (fun b =>
      if ((data.filter (fun r => decide (r.x0 = a ∧ r.x1 = b))).map
          Row2.result) ≠ [] then
        some (mkStat2 a b
          ((data.filter (fun r => decide (r.x0 = a ∧ r.x1 = b))).map
            Row2.result) (precDec precision_bits))
      else none))

/-- Grid assembly of harmonic/heatmap.py lines 20-27: only the total
count of values is checked — it must be a perfect square (`int(np.sqrt
(N))` squared must give back `N`) — after which the flat list is
reshaped to a `side × side` matrix and transposed.  Coordinates are
never consulted. -/
def heatmapAssemble (errors : List ℚ) : Except String (List (List ℚ)) :=
  if Nat.sqrt errors.length * Nat.sqrt errors.length ≠ errors.length then
    Except.error "Expected a square grid"
  else Except.ok ((errors.toChunks (Nat.sqrt errors.length)).transpose)

/-- A data row with both inputs and `result = 1`, sample index 0. -/
def row2 (a b : ℚ) : Row2 := ⟨0, a, b, 1⟩

/-- The complete 4×4 two-input dataset (16 rows, one per combination of
`x0, x1 ∈ {0,1,2,3}`). -/
def grid16 : List Row2 :=
  [row2 0 0, row2 0 1, row2 0 2, row2 0 3,
   row2 1 0, row2 1 1, row2 1 2, row2 1 3,
   row2 2 0, row2 2 1, row2 2 2, row2 2 3,
   row2 3 0, row2 3 1, row2 3 2, row2 3 3]

/-- `grid16` with the row for the combination `(3, 3)` removed. -/
def grid15 : List Row2 :=
  [row2 0 0, row2 0 1, row2 0 2, row2 0 3,
   row2 1 0, row2 1 1, row2 1 2, row2 1 3,
   row2 2 0, row2 2 1, row2 2 2, row2 2 3,
   row2 3 0, row2 3 1, row2 3 2]

/-- C9 counterexample: removing one row from the complete 4×4 dataset
does NOT make the softmax/plot.py rectangular assembly raise an error:
`compute_statistics` runs to completion and returns the 15 per-cell
entries for the present combinations, silently skipping the missing
cell `(3, 3)`. -/
theorem incomplete_grid_not_rejected :
    (computeStats2 grid15 53).length = 15 ∧
    ¬(∃ r ∈ grid15, r.x0 = 3 ∧ r.x1 = 3) := by
  constructor
  · rfl
  · decide

/-- C9 amended: the only check performed by heatmap.py is that the
number of values is a perfect square — a complete 4×4 grid (16 values)
assembles, the same data with one row removed (15 values) fails that
count check, but the per-coordinate Cartesian-product structure is
never verified; and the softmax/plot.py 2D assembly never fails at all:
every combination present in the data yields an entry and missing
combinations are silently skipped. -/
theorem grid_assembly_semantics :
    (∀ errors : List ℚ, (∃ g, heatmapAssemble errors = Except.ok g) ↔
      ∃ side : ℕ, side * side = errors.length) ∧
    (∀ (data : List Row2) (bits : ℝ) (a b : ℚ),
      (∃ r ∈ data, r.x0 = a ∧ r.x1 = b) →
      ∃ s ∈ computeStats2 data bits, s.x0 = a ∧ s.x1 = b) := by
  constructor
  · intro errors
    constructor
    · rintro ⟨g, hg⟩
      unfold heatmapAssemble at hg
      split at hg
      · exact absurd hg (by simp)
      · next h =>
          exact ⟨Nat.sqrt errors.length, not_ne_iff.mp h⟩
    · rintro ⟨side, hside⟩
      have hs : Nat.sqrt errors.length = side := by
        rw [← hside, Nat.sqrt_eq]
      refine ⟨(errors.toChunks (Nat.sqrt errors.length)).transpose, ?_⟩
      unfold heatmapAssemble
      rw [if_neg (by rw [hs]; exact not_ne_iff.mpr hside)]
  · rintro data bits a b ⟨r, hr, hx0, hx1⟩
    have ha : a ∈ uniqueSorted (data.map Row2.x0) :=
      mem_uniqueSorted.mpr (List.mem_map.mpr ⟨r, hr, hx0⟩)
    have hb : b ∈ uniqueSorted (data.map Row2.x1) :=
      mem_uniqueSorted.mpr (List.mem_map.mpr ⟨r, hr, hx1⟩)
    have hrkeep : r ∈ data.filter (fun r => decide (r.x0 = a ∧ r.x1 = b)) :=
      List.mem_filter.mpr ⟨hr, by simp [hx0, hx1]⟩
    have hne : ((data.filter (fun r => decide (r.x0 = a ∧ r.x1 = b))).map
        Row2.result) ≠ [] := by
      intro hnil
      have := List.mem_map_of_mem Row2.result hrkeep
      rw [hnil] at this
      exact absurd this (List.not_mem_nil _)
    refine ⟨mkStat2 a b
      ((data.filter (fun r => decide (r.x0 = a ∧ r.x1 = b))).map
        Row2.result) (precDec bits), ?_, rfl, rfl⟩
    unfold computeStats2
    rw [List.mem_flatMap]
    refine ⟨a, ha, ?_⟩
    rw [List.mem_filterMap]
    exact ⟨b, hb, by rw [if_pos hne]⟩

/-- Concrete instance of `grid_assembly_semantics`: 16 values assemble
(4·4 = 16), 15 values are rejected by the square-count check, and every
combination present in `grid15` — e.g. `(0, 0)` — yields a statistics
entry. -/
theorem grid_assembly_semantics_witness :
    (∃ g, heatmapAssemble (List.replicate 16 (1 : ℚ)) = Except.ok g) ∧
    ¬(∃ g, heatmapAssemble (List.replicate 15 (1 : ℚ)) = Except.ok g) ∧
    (∃ s ∈ computeStats2 grid15 53, s.x0 = 0 ∧ s.x1 = 0) := by
  refine ⟨?_, ?_, ?_⟩
  · exact (grid_assembly_semantics.1 _).mpr ⟨4, by simp⟩
  · intro h
    obtain ⟨side, hside⟩ := (grid_assembly_semantics.1 _).mp h
    rw [List.length_replicate] at hside
    rcases le_or_lt side 3 with hs | hs
    · nlinarith
    · nlinarith
  · exact grid_assembly_semantics.2 grid15 53 0 0 ⟨row2 0 0, by decide, rfl, rfl⟩
